import Mathlib

/-
Verification of the checker engine of swift-check.py (repository toboggan).
The Python source is shallowly embedded: each rule evaluator becomes a total
Lean function over the file's list of lines; the issue log becomes an explicit
state record; the Python regexes (all of which are deterministic on their
input alphabet, as argued in the comments below) become hand-written matchers
over List Char.
-/

set_option maxRecDepth 100000

namespace SwiftCheck

/- ===================== Python string primitives ===================== -/

/-- Python whitespace characters (the ASCII set used by str.strip and re \s). -/
def pyIsSpace (c : Char) : Bool :=
  c == ' ' || c == '\t' || c == '\n' || c == '\r' || c == '\x0b' || c == '\x0c'

/-- Drop leading whitespace from a character list. -/
def dropWS : List Char → List Char
  | [] => []
  | c :: t => if pyIsSpace c then dropWS t else c :: t

/-- Python line.strip(): remove leading and trailing whitespace. -/
def pyStrip (s : String) : String :=
  ⟨(dropWS (dropWS s.data).reverse).reverse⟩

/-- Python line.rstrip(): remove trailing whitespace. -/
def pyRStrip (s : String) : String :=
  ⟨(dropWS s.data.reverse).reverse⟩

/-- Is the first list a prefix of the second (character-wise)? -/
def isPrefixL : List Char → List Char → Bool
  | [], _ => true
  | _ :: _, [] => false
  | a :: as, b :: bs => a == b && isPrefixL as bs

/-- Python `sub in s` on character lists: does sub occur as a contiguous
substring? -/
def containsSubL (sub : List Char) : List Char → Bool
  | [] => isPrefixL sub []
  | c :: t => isPrefixL sub (c :: t) || containsSubL sub t

/-- Python `sub in line` for strings. -/
def containsSub (sub s : String) : Bool := containsSubL sub.data s.data

/-- Python `c in line` for a single character. -/
def containsChar (c : Char) (s : String) : Bool := decide (c ∈ s.data)

/-- Python line.count(c) for a single character. -/
def countChar (c : Char) (s : String) : Nat := s.data.count c

/-- Python line.strip().startswith(sub). -/
def startsWithSub (sub s : String) : Bool := isPrefixL sub.data s.data

/- ===================== Issue data model ===================== -/

/-- One reported finding: the five arguments of every log_issue call site. -/
structure Issue where
  file_path : String
  line_num : Nat
  severity : String
  rule : String
  message : String
deriving DecidableEq

/-- The console line built by log_issue:
f-string fp:line: severity: message (rule). -/
def formatIssue (c : Issue) : String :=
  c.file_path ++ ":" ++ toString c.line_num ++ ": " ++ c.severity ++ ": " ++
    c.message ++ " (" ++ c.rule ++ ")"

/-- SwiftChecker.__init__: issues list plus the two counters. -/
structure CheckerState where
  issues : List String
  warnings : Nat
  errors : Nat
deriving DecidableEq

/-- SwiftChecker.log_issue: append the formatted issue and bump the counter
(errors if severity == "error", warnings otherwise). -/
def log_issue (s : CheckerState) (c : Issue) : CheckerState :=
  { issues := s.issues ++ [formatIssue c],
    warnings := if c.severity == "error" then s.warnings else s.warnings + 1,
    errors := if c.severity == "error" then s.errors + 1 else s.errors }

/-- SwiftChecker.summary: returns self.errors > 0. -/
def summary (s : CheckerState) : Bool := decide (s.errors > 0)

/-- main's final sys.exit(1 if has_errors else 0). -/
def mainExitCode (has_errors : Bool) : Nat := if has_errors then 1 else 0

/- ===================== Claim C1 ===================== -/

/-- Claim C1: the verdict returned by summary is true iff the error counter is
positive, and the exit code computed from it is 0 exactly when the error
counter is zero — for every value of the warning counter and issue list, so
warnings alone never flip the verdict or the exit code. -/
theorem c1_verdict_and_exit_code :
    ∀ (issues : List String) (w e : Nat),
      (summary ⟨issues, w, e⟩ = true ↔ 0 < e) ∧
      (mainExitCode (summary ⟨issues, w, e⟩) = 0 ↔ e = 0) := by
  intro issues w e
  constructor
  · simp [summary]
  · cases e with
    | zero => simp [summary, mainExitCode]
    | succ n => simp [summary, mainExitCode]

/- ===================== Claim C7 ===================== -/

theorem log_run_general :
    ∀ (calls : List Issue) (init : CheckerState),
      (∀ c ∈ calls, c.severity = "warning" ∨ c.severity = "error") →
      (calls.foldl log_issue init).warnings
          = init.warnings + calls.countP (fun c => c.severity == "warning") ∧
      (calls.foldl log_issue init).errors
          = init.errors + calls.countP (fun c => c.severity == "error") ∧
      (calls.foldl log_issue init).issues = init.issues ++ calls.map formatIssue := by
  intro calls
  induction calls with
  | nil => intro init h; simp
  | cons c cs ih =>
    intro init h
    have hc := h c (by simp)
    have hcs : ∀ x ∈ cs, x.severity = "warning" ∨ x.severity = "error" := by
      intro x hx; exact h x (by simp [hx])
    have := ih (log_issue init c) hcs
    rcases this with ⟨hw, he, hi⟩
    refine ⟨?_, ?_, ?_⟩
    · rw [List.foldl_cons, hw, List.countP_cons]
      rcases hc with h1 | h1 <;> (simp [log_issue, h1]; try omega)
    · rw [List.foldl_cons, he, List.countP_cons]
      rcases hc with h1 | h1 <;> (simp [log_issue, h1]; try omega)
    · rw [List.foldl_cons, hi]
      simp [log_issue]

/-- Claim C7: starting from the fresh checker state, after any sequence of
log_issue calls whose severities are "warning" or "error" (the only severities
reachable in a run), the warning counter equals the number of warning-severity
calls, the error counter equals the number of error-severity calls, the issue
sequence is exactly the formatted calls in order, and each single log_issue
step only appends to the sequence. -/
theorem c7_log_issue_invariant :
    ∀ (calls : List Issue),
      (∀ c ∈ calls, c.severity = "warning" ∨ c.severity = "error") →
      (calls.foldl log_issue ⟨[], 0, 0⟩).warnings
          = calls.countP (fun c => c.severity == "warning") ∧
      (calls.foldl log_issue ⟨[], 0, 0⟩).errors
          = calls.countP (fun c => c.severity == "error") ∧
      (calls.foldl log_issue ⟨[], 0, 0⟩).issues = calls.map formatIssue ∧
      (∀ (s : CheckerState) (c : Issue),
        (log_issue s c).issues = s.issues ++ [formatIssue c]) := by
  intro calls h
  have := log_run_general calls ⟨[], 0, 0⟩ h
  rcases this with ⟨hw, he, hi⟩
  refine ⟨?_, ?_, ?_, ?_⟩
  · simpa using hw
  · simpa using he
  · simpa using hi
  · intro s c; simp [log_issue]

/-- Witness for C7 at a concrete two-call run (one warning, one error). -/
theorem c7_log_issue_invariant_witness :
    (([⟨"a.swift", 1, "warning", "line_length", "m1"⟩,
       ⟨"a.swift", 2, "error", "read", "m2"⟩] : List Issue).foldl
        log_issue ⟨[], 0, 0⟩).warnings
        = ([⟨"a.swift", 1, "warning", "line_length", "m1"⟩,
            ⟨"a.swift", 2, "error", "read", "m2"⟩] : List Issue).countP
            (fun c => c.severity == "warning") := by
  exact (c7_log_issue_invariant
    [⟨"a.swift", 1, "warning", "line_length", "m1"⟩,
     ⟨"a.swift", 2, "error", "read", "m2"⟩] (by decide)).1

/- ===================== Rule evaluator: line length ===================== -/

/-- check_line_length: warn on every line whose rstripped length exceeds 120. -/
def check_line_length_go (fp : String) : Nat → List String → List Issue
  | _, [] => []
  | i, line :: rest =>
    (if (pyRStrip line).length > 120 then
      [⟨fp, i, "warning", "line_length",
        "Line should be 120 characters or less: currently " ++
          toString (pyRStrip line).length ++ " characters"⟩]
    else []) ++ check_line_length_go fp (i + 1) rest

def check_line_length (fp : String) (lines : List String) : List Issue :=
  check_line_length_go fp 1 lines

/- ===================== Rule evaluator: force unwrapping ===================== -/

/-- Python line.split for the separator "//": fields between non-overlapping
occurrences of two consecutive slashes, scanned left to right. -/
def splitSS : List Char → List (List Char)
  | [] => [[]]
  | [c] => [[c]]
  | a :: b :: t =>
    if a = '/' ∧ b = '/' then [] :: splitSS t
    else
      match splitSS (b :: t) with
      | [] => [[a]]
      | f :: fs => (a :: f) :: fs

/-- The characters before the first occurrence of two consecutive slashes. -/
def stripComment : List Char → List Char
  | [] => []
  | [c] => [c]
  | a :: b :: t =>
    if a = '/' ∧ b = '/' then []
    else a :: stripComment (b :: t)

/-- Python `line.split("//")[0]` guarded by `"//" in line`, with the list
indexing made explicit as an Option (IndexError would be none). -/
def code_part (line : String) : Option String :=
  if containsSub "//" line then
    ((splitSS line.data).map (fun l => (⟨l⟩ : String))).head?
  else some line

/-- Characters the regex forbids immediately before the bang:
the class complement in the source pattern. -/
def fuExcluded (c : Char) : Bool := c == '!' || c == '=' || c == '<' || c == '>'

/-- Does the force-unwrap regex match starting at this position? The pattern
is: one character outside the excluded class, optional whitespace, a bang,
optional whitespace, one character that is not an equals sign. Because no
whitespace character is a bang or an equals sign, the two optional-whitespace
gaps are matched deterministically: drop all whitespace before the bang, and
after the bang the first character decides (whitespace itself satisfies the
final class). -/
def fuMatchAt : List Char → Bool
  | [] => false
  | c :: t =>
    if fuExcluded c then false
    else
      match dropWS t with
      | '!' :: u =>
        match u with
        | [] => false
        | d :: _ => d != '='
      | _ => false

/-- re.search for the force-unwrap pattern: try every start position. -/
def fuSearch : List Char → Bool
  | [] => false
  | c :: t => fuMatchAt (c :: t) || fuSearch t

def fuIssue (fp : String) (i : Nat) : Issue :=
  ⟨fp, i, "warning", "force_unwrapping",
    "Avoid force unwrapping! Use optional binding or guard statements"⟩

/-- check_force_unwrapping: per line, strip the trailing line comment, then
emit one warning if the regex matches anywhere in the code part. The Option
threads the explicit list indexing of code_part. -/
def check_force_unwrapping_go (fp : String) : Nat → List String → Option (List Issue)
  | _, [] => some []
  | i, line :: rest => do
    let cp ← code_part line
    let tail ← check_force_unwrapping_go fp (i + 1) rest
    pure ((if fuSearch cp.data then [fuIssue fp i] else []) ++ tail)

def check_force_unwrapping (fp : String) (lines : List String) : Option (List Issue) :=
  check_force_unwrapping_go fp 1 lines

/- ===================== Rule evaluator: try force ===================== -/

/-- check_try_force: warn when the line contains "try!" and its stripped form
does not start with two slashes. -/
def check_try_force_go (fp : String) : Nat → List String → List Issue
  | _, [] => []
  | i, line :: rest =>
    (if containsSub "try!" line && !(startsWithSub "//" (pyStrip line)) then
      [⟨fp, i, "warning", "try_force",
        "Avoid try! - use proper error handling with do-catch or try?"⟩]
    else []) ++ check_try_force_go fp (i + 1) rest

def check_try_force (fp : String) (lines : List String) : List Issue :=
  check_try_force_go fp 1 lines

/- ===================== Rule evaluator: function length ===================== -/

/-- Consume a literal character sequence from the front of the input. -/
def eatLit : List Char → List Char → Option (List Char)
  | [], l => some l
  | _ :: _, [] => none
  | a :: as, b :: bs => if a == b then eatLit as bs else none

/-- Consume at least one whitespace character, then all following whitespace.
Every use site is followed by a letter or by nothing, so the maximal munch is
exactly what the backtracking regex accepts. -/
def eatWS1 : List Char → Option (List Char)
  | [] => none
  | c :: t => if pyIsSpace c then some (dropWS t) else none

/-- One iteration of the access-modifier alternation of the function
declaration regex. The four literals are pairwise distinguishable at their
first two characters, so at any position at most one alternative can match
and no cross-branch backtracking is possible. -/
def eatMod (l : List Char) : Option (List Char) :=
  match eatLit "private".data l with
  | some r => eatWS1 r
  | none =>
    match eatLit "public".data l with
    | some r => eatWS1 r
    | none =>
      match eatLit "internal".data l with
      | some r => eatWS1 r
      | none =>
        match eatLit "fileprivate".data l with
        | some r => eatWS1 r
        | none => none

/-- Matcher loop for the declaration regex: either the introducer keyword
followed by whitespace matches here, or one access modifier is consumed and
the loop continues. Each iteration consumes at least one character, so a fuel
of length-plus-one never runs out. -/
def funcDeclGo : Nat → List Char → Bool
  | 0, _ => false
  | fuel + 1, l =>
    (match eatLit "func".data l with
     | some r => (eatWS1 r).isSome
     | none => false)
    ||
    (match eatMod l with
     | some r => funcDeclGo fuel r
     | none => false)

/-- re.match of the function declaration pattern against the stripped line:
optional whitespace, any number of access modifiers each followed by
whitespace, the introducer keyword, whitespace. -/
def isFuncDecl (stripped : String) : Bool :=
  funcDeclGo (stripped.data.length + 1) (dropWS stripped.data)

/-- Net brace delta of a line: opening braces minus closing braces. -/
def braceDelta (line : String) : Int :=
  (countChar '\x7b' line : Int) - (countChar '\x7d' line : Int)

/-- The three loop-carried variables of check_function_length. -/
structure FLState where
  in_function : Bool
  function_start : Nat
  brace_count : Int
deriving DecidableEq

/-- Initial values of the loop-carried variables. -/
def flInit : FLState := ⟨false, 0, 0⟩

def fbLengthIssue (fp : String) (start : Nat) (len : Int) : Issue :=
  ⟨fp, start, "warning", "function_body_length",
    "Function body should be 60 lines or less: currently " ++
      toString len ++ " lines"⟩

/-- One iteration of the check_function_length loop body, returning the new
state and the issues logged on this line. The declaration test comes first:
when the stripped line matches the declaration shape and the raw line has an
opening brace, tracking (re)starts here and the close test is skipped. -/
def flStep (fp : String) (i : Nat) (line : String) (st : FLState) :
    FLState × List Issue :=
  if isFuncDecl (pyStrip line) then
    if containsChar '\x7b' line then (⟨true, i, braceDelta line⟩, [])
    else (st, [])
  else if st.in_function then
    let bc := st.brace_count + braceDelta line
    if bc ≤ 0 then
      let len : Int := (i : Int) - (st.function_start : Int) + 1
      (⟨false, st.function_start, bc⟩,
        if len > 60 then [fbLengthIssue fp st.function_start len] else [])
    else (⟨true, st.function_start, bc⟩, [])
  else (st, [])

/-- The loop of check_function_length, also returning the final state. -/
def flRun (fp : String) : Nat → FLState → List String → FLState × List Issue
  | _, st, [] => (st, [])
  | i, st, line :: rest =>
    let p := flStep fp i line st
    let q := flRun fp (i + 1) p.1 rest
    (q.1, p.2 ++ q.2)

def check_function_length (fp : String) (lines : List String) : List Issue :=
  (flRun fp 1 flInit lines).2

/- ===================== Rule evaluator: TODO format ===================== -/

def todoIssue (fp : String) (i : Nat) : Issue :=
  ⟨fp, i, "warning", "todo_format",
    "TODO comments should include context: // TODO: Description"⟩

/-- check_todo_format: warn when the line contains the marker substring but
not the marker followed by a colon (the second test is a re.search whose
pattern is a plain literal). -/
def check_todo_format_go (fp : String) : Nat → List String → List Issue
  | _, [] => []
  | i, line :: rest =>
    (if containsSub "// TODO" line && !(containsSub "// TODO:" line) then
      [todoIssue fp i]
    else []) ++ check_todo_format_go fp (i + 1) rest

def check_todo_format (fp : String) (lines : List String) : List Issue :=
  check_todo_format_go fp 1 lines

/- ===================== Rule evaluator: naming conventions ===================== -/

/-- Word characters for the word-boundary assertion. -/
def isWordChar (c : Char) : Bool := c.isAlpha || c.isDigit || c == '_'

/-- A word boundary holds before a word character when there is no previous
character or the previous character is not a word character. -/
def boundaryOk : Option Char → Bool
  | none => true
  | some c => !(isWordChar c)

/-- Drop a maximal run of ASCII letters and digits (the identifier tail
class of both naming regexes). -/
def dropAlnum : List Char → List Char
  | [] => []
  | c :: t => if c.isAlpha || c.isDigit then dropAlnum t else c :: t

/-- The binding-keyword alternation of the variable-name regex. -/
def eatKwLet (l : List Char) : Option (List Char) :=
  match eatLit "let".data l with
  | some r => some r
  | none => eatLit "var".data l

/-- Does the variable-name regex match at this position (prev is the previous
character, for the boundary)? Pattern: boundary, binding keyword, whitespace,
an uppercase letter, identifier tail, optional whitespace, an equals sign.
The identifier tail and both whitespace runs are deterministic: a shorter
munch leaves a character that can satisfy neither the following whitespace
class nor the equals sign. -/
def vnMatchAt (prev : Option Char) (l : List Char) : Bool :=
  boundaryOk prev &&
  (match eatKwLet l with
   | none => false
   | some r =>
     match eatWS1 r with
     | none => false
     | some r2 =>
       match r2 with
       | [] => false
       | c :: rest =>
         c.isUpper &&
         (match dropWS (dropAlnum rest) with
          | d :: _ => d == '='
          | [] => false))

/-- re.search for the variable-name pattern. -/
def vnSearch : Option Char → List Char → Bool
  | _, [] => false
  | prev, c :: t => vnMatchAt prev (c :: t) || vnSearch (some c) t

/-- The type-keyword alternation of the type-name regex. -/
def eatKwType (l : List Char) : Option (List Char) :=
  match eatLit "class".data l with
  | some r => some r
  | none =>
    match eatLit "struct".data l with
    | some r => some r
    | none =>
      match eatLit "enum".data l with
      | some r => some r
      | none => eatLit "protocol".data l

/-- Does the type-name regex match at this position? Pattern: boundary, type
keyword, whitespace, a lowercase letter; the identifier tail needs nothing
after it. -/
def tnMatchAt (prev : Option Char) (l : List Char) : Bool :=
  boundaryOk prev &&
  (match eatKwType l with
   | none => false
   | some r =>
     match eatWS1 r with
     | none => false
     | some r2 =>
       match r2 with
       | [] => false
       | c :: _ => c.isLower)

/-- re.search for the type-name pattern. -/
def tnSearch : Option Char → List Char → Bool
  | _, [] => false
  | prev, c :: t => tnMatchAt prev (c :: t) || tnSearch (some c) t

def vnIssue (fp : String) (i : Nat) : Issue :=
  ⟨fp, i, "warning", "variable_name",
    "Variable names should start with lowercase letter (camelCase)"⟩

def tnIssue (fp : String) (i : Nat) : Issue :=
  ⟨fp, i, "warning", "type_name",
    "Type names should start with uppercase letter (PascalCase)"⟩

/-- check_naming_conventions: per line, the variable check then the type
check, each an independent re.search. -/
def check_naming_conventions_go (fp : String) : Nat → List String → List Issue
  | _, [] => []
  | i, line :: rest =>
    (if vnSearch none line.data then [vnIssue fp i] else []) ++
    (if tnSearch none line.data then [tnIssue fp i] else []) ++
    check_naming_conventions_go fp (i + 1) rest

def check_naming_conventions (fp : String) (lines : List String) : List Issue :=
  check_naming_conventions_go fp 1 lines

/- ===================== The per-file run of all six evaluators ===================== -/

/-- check_file body after a successful read: the six evaluators in call
order, their issues in log order. -/
def runAllChecks (fp : String) (lines : List String) : Option (List Issue) :=
  (check_force_unwrapping fp lines).map (fun fu =>
    check_line_length fp lines ++ fu ++ check_try_force fp lines ++
    check_function_length fp lines ++ check_todo_format fp lines ++
    check_naming_conventions fp lines)

/- ===================== Model of main's control flow ===================== -/

/-- How a process run ends: a sys.exit with a code, or an exception that
escapes main. -/
inductive RunOutcome
  | exited (code : Nat)
  | uncaught (exc : String)
deriving DecidableEq

/-- Control flow of main. An operator interruption raises KeyboardInterrupt
inside the scan; the per-file handler in check_file catches only Exception,
which does not include KeyboardInterrupt, and neither check_directory nor
main has any handler, so the interruption escapes main uncaught. Otherwise
main exits with 1 on a missing argument or a non-directory, and with the
code derived from the final error counter after the scan and summary. -/
def mainOutcome (argc : Nat) (isDir : Bool) (interrupted : Bool)
    (errorsAtEnd : Nat) : RunOutcome :=
  if argc < 2 then .exited 1
  else if !isDir then .exited 1
  else if interrupted then .uncaught "KeyboardInterrupt"
  else .exited (mainExitCode (decide (0 < errorsAtEnd)))

/- ===================== Claims C2, C3, C9 ===================== -/

/-- A file with a declaration line at line 10 whose brace depth first returns
to zero on line 75 (body length 66). -/
def c2Long : List String :=
  List.replicate 9 "" ++ ["func f() \x7b"] ++
    List.replicate 64 "let x = 1" ++ ["\x7d"]

/-- The same file shrunk so the depth first returns to zero on line 69
(body length 60). -/
def c2Short : List String :=
  List.replicate 9 "" ++ ["func f() \x7b"] ++
    List.replicate 58 "let x = 1" ++ ["\x7d"]

/-- Claim C2: on the file whose declaration-with-brace line is line 10 and
whose brace depth first returns to zero on line 75, the function-length rule
emits exactly one function_body_length warning attributed to line 10
reporting length 66; with the depth first returning to zero on line 69
(length 60) it emits nothing. -/
theorem c2_function_length_thresholds :
    check_function_length "a.swift" c2Long = [fbLengthIssue "a.swift" 10 66] ∧
    check_function_length "a.swift" c2Short = [] := by
  constructor
  · decide
  · decide

/-- A file whose outer function starts at line 1 and which contains a nested
declaration-with-brace line at line 2; the nested body's depth returns to
zero at line 70. -/
def c3Nested : List String :=
  ["func outer() \x7b", "func inner() \x7b"] ++
    List.replicate 67 "let x = 1" ++ ["\x7d"]

/-- Counterexample to claim C3 as stated: on c3Nested the nested declaration
at line 2 is met while the outer span (started at line 1) is open, yet the
single emitted issue is attributed to line 2, not to the outer function's
start line 1 — so a nested declaration does start a new span. -/
theorem c3_cex_nested_decl_attribution :
    check_function_length "a.swift" c3Nested = [fbLengthIssue "a.swift" 2 69] ∧
    (check_function_length "a.swift" c3Nested).all
      (fun x => x.line_num != 1) = true := by
  constructor
  · decide
  · decide

/-- Claim C3 (amended): at most one span is tracked at a time (the state is a
single start line and depth counter), but a nested declaration line matching
the declaration shape with an opening brace, met while a span is already
open, restarts the span: the start line and the brace counter are reset to
the nested declaration, so the issue (if any) is attributed to the inner
function's start line and the outer span is abandoned. -/
theorem c3_nested_decl_restarts_span :
    (∀ (fp : String) (i : Nat) (st : FLState) (line : String),
      st.in_function = true →
      isFuncDecl (pyStrip line) = true →
      containsChar '\x7b' line = true →
      flStep fp i line st = (⟨true, i, braceDelta line⟩, [])) ∧
    (check_function_length "a.swift" c3Nested).map Issue.line_num = [2] := by
  constructor
  · intro fp i st line _ h2 h3
    simp [flStep, h2, h3]
  · decide

/-- Witness for the amended C3 at a concrete nested declaration line met with
an open span. -/
theorem c3_nested_decl_restarts_span_witness :
    flStep "b.swift" 2 "func inner() \x7b" ⟨true, 1, 1⟩ =
      (⟨true, 2, braceDelta "func inner() \x7b"⟩, []) :=
  c3_nested_decl_restarts_span.1 "b.swift" 2 ⟨true, 1, 1⟩ "func inner() \x7b"
    rfl (by decide) (by decide)

/-- Claim C9: a line matching the declaration shape with an opening brace
never evaluates the close condition — the step on such a line emits nothing
and leaves the span open whatever the state and the line's brace balance —
and on a file whose last line is such a self-balancing declaration the span
stays open at end of file and no issue is emitted. -/
theorem c9_decl_line_never_closes :
    (∀ (fp : String) (i : Nat) (st : FLState) (line : String),
      isFuncDecl (pyStrip line) = true →
      containsChar '\x7b' line = true →
      (flStep fp i line st).2 = [] ∧
      ((flStep fp i line st).1).in_function = true) ∧
    (flRun "a.swift" 1 flInit ["func f() \x7b \x7d"]).2 = [] ∧
    ((flRun "a.swift" 1 flInit ["func f() \x7b \x7d"]).1).in_function = true ∧
    check_function_length "a.swift" ["func f() \x7b \x7d"] = [] := by
  refine ⟨?_, by decide, by decide, by decide⟩
  intro fp i st line h1 h2
  simp [flStep, h1, h2]

/-- Witness for C9 at a concrete self-balancing declaration line. -/
theorem c9_decl_line_never_closes_witness :
    (flStep "b.swift" 7 "func g() \x7b \x7d" flInit).2 = [] ∧
    ((flStep "b.swift" 7 "func g() \x7b \x7d" flInit).1).in_function = true :=
  c9_decl_line_never_closes.1 "b.swift" 7 flInit "func g() \x7b \x7d"
    (by decide) (by decide)

/- ===================== Claims C4, C5, C6 ===================== -/

theorem splitSS_head :
    ∀ (l : List Char), (splitSS l).head? = some (stripComment l) := by
  intro l
  induction l using splitSS.induct with
  | case1 => rfl
  | case2 c => rfl
  | case3 a b t h =>
    simp [splitSS, stripComment, h]
  | case4 a b t h hnil ih =>
    rw [hnil] at ih
    simp at ih
  | case5 a b t h f fs hcons ih =>
    rw [hcons] at ih
    simp only [List.head?_cons, Option.some_inj] at ih
    simp only [splitSS, stripComment, if_neg h, hcons]
    simp [ih]

theorem stripComment_of_not_contains :
    ∀ (l : List Char), containsSubL ['/', '/'] l = false → stripComment l = l := by
  intro l
  induction l using stripComment.induct with
  | case1 => intro _; rfl
  | case2 c => intro _; rfl
  | case3 a b t h =>
    intro hc
    exfalso
    rcases h with ⟨ha, hb⟩
    simp [containsSubL, isPrefixL, ha, hb] at hc
  | case4 a b t h ih =>
    intro hc
    rw [stripComment, if_neg h]
    rw [containsSubL, Bool.or_eq_false_iff] at hc
    rw [ih hc.2]

theorem code_part_eq :
    ∀ (line : String), code_part line = some ⟨stripComment line.data⟩ := by
  intro line
  by_cases hc : containsSub "//" line
  · rw [code_part, if_pos hc, List.head?_map, splitSS_head]
    rfl
  · rw [code_part, if_neg hc]
    have h2 : containsSubL ['/', '/'] line.data = false := by
      rw [← Bool.not_eq_true]
      exact hc
    rw [stripComment_of_not_contains line.data h2]

theorem fuGo_eq :
    ∀ (fp : String) (lines : List String) (i : Nat),
      check_force_unwrapping_go fp i lines =
        some ((List.enumFrom i lines).filterMap (fun p =>
          if fuSearch (stripComment p.2.data) then some (fuIssue fp p.1)
          else none)) := by
  intro fp lines
  induction lines with
  | nil => intro i; rfl
  | cons line rest ih =>
    intro i
    simp only [check_force_unwrapping_go, code_part_eq line, ih (i + 1),
      Option.bind_some, List.enumFrom, List.filterMap_cons]
    cases hs : fuSearch (stripComment line.data) with
    | false => simp [hs]
    | true => simp [hs]

/-- Modelled from the claim's words (C4): the code portion contains a bang
that is not immediately preceded by a bang, equals, less-than or greater-than
and not immediately followed by an equals sign; a missing neighbour counts as
not preceded and not followed. -/
def claimBangCond (s : String) : Bool :=
  (List.range s.data.length).any (fun i =>
    s.data.getD i ' ' == '!' &&
    (decide (i = 0) || !(fuExcluded (s.data.getD (i - 1) ' '))) &&
    (decide (i + 1 = s.data.length) || s.data.getD (i + 1) ' ' != '='))

/-- Counterexample to claim C4 as stated: the line of text bang-x satisfies
the claim's condition (its bang has no preceding character and is followed by
a non-equals character), yet the evaluator emits no issue, because the source
regex requires an actual character before the bang. -/
theorem c4_cex_boundary_bang :
    claimBangCond "!x" = true ∧
    check_force_unwrapping "a.swift" ["!x"] = some [] := by
  constructor
  · decide
  · decide

/-- Claim C4 (amended): per line the evaluator first truncates at the first
occurrence of two consecutive slashes, then emits exactly one
force_unwrapping warning for the line iff the remaining code portion matches:
a character other than bang, equals, less-than, greater-than; optional
whitespace; a bang; optional whitespace; a character other than equals. Both
a preceding and a following character must exist, so a bang at the very start
or very end of the code portion never triggers by itself; several matches on
one line still give exactly one warning. -/
theorem c4_force_unwrap_characterization :
    ∀ (fp : String) (lines : List String),
      check_force_unwrapping fp lines =
        some ((List.enumFrom 1 lines).filterMap (fun p =>
          if fuSearch (stripComment p.2.data) then some (fuIssue fp p.1)
          else none)) := by
  intro fp lines
  exact fuGo_eq fp lines 1

theorem todoGo_eq :
    ∀ (fp : String) (lines : List String) (i : Nat),
      check_todo_format_go fp i lines =
        (List.enumFrom i lines).filterMap (fun p =>
          if containsSub "// TODO" p.2 && !(containsSub "// TODO:" p.2) then
            some (todoIssue fp p.1)
          else none) := by
  intro fp lines
  induction lines with
  | nil => intro i; rfl
  | cons line rest ih =>
    intro i
    simp only [check_todo_format_go, ih (i + 1), List.enumFrom,
      List.filterMap_cons]
    cases hs : containsSub "// TODO" line && !(containsSub "// TODO:" line) with
    | false => simp [hs]
    | true => simp [hs]

/-- Claim C5: the TODO rule warns on exactly the lines that contain the
marker substring but do not contain the marker followed by a colon — for a
line containing the marker, one todo_format warning iff no occurrence of the
marker is immediately followed by a colon — and on the two concrete example
lines it emits nothing for the colon form and exactly one for the bare
form. -/
theorem c5_todo_format_characterization :
    (∀ (fp : String) (lines : List String),
      check_todo_format fp lines =
        (List.enumFrom 1 lines).filterMap (fun p =>
          if containsSub "// TODO" p.2 && !(containsSub "// TODO:" p.2) then
            some (todoIssue fp p.1)
          else none)) ∧
    check_todo_format "a.swift" ["// TODO: fix this"] = [] ∧
    check_todo_format "a.swift" ["// TODO fix this"] = [todoIssue "a.swift" 1] := by
  refine ⟨?_, by decide, by decide⟩
  intro fp lines
  exact todoGo_eq fp lines 1

/-- Claim C6: on every file path and every list of lines whatsoever, each of
the six rule evaluators returns a result — in particular the one evaluator
with an explicit partial operation, the list indexing inside the
force-unwrap rule, never fails — and the combined per-file run therefore
also returns a result. -/
theorem c6_evaluators_total :
    ∀ (fp : String) (lines : List String),
      ∃ r1 r2 r3 r4 r5 r6,
        check_line_length fp lines = r1 ∧
        check_force_unwrapping fp lines = some r2 ∧
        check_try_force fp lines = r3 ∧
        check_function_length fp lines = r4 ∧
        check_todo_format fp lines = r5 ∧
        check_naming_conventions fp lines = r6 ∧
        runAllChecks fp lines = some (r1 ++ r2 ++ r3 ++ r4 ++ r5 ++ r6) := by
  intro fp lines
  refine ⟨_, _, _, _, _, _, rfl, fuGo_eq fp lines 1, rfl, rfl, rfl, rfl, ?_⟩
  rw [runAllChecks, check_force_unwrapping, fuGo_eq fp lines 1]
  rfl

/- ===================== Claim C10 ===================== -/

theorem mem_of_eatLit :
    ∀ (w l r : List Char), eatLit w l = some r → ∀ x ∈ r, x ∈ l := by
  intro w
  induction w with
  | nil =>
    intro l r h x hx
    simp [eatLit] at h
    rw [h]
    exact hx
  | cons a as ih =>
    intro l r h x hx
    cases l with
    | nil => simp [eatLit] at h
    | cons b bs =>
      rw [eatLit] at h
      by_cases hab : a == b
      · rw [if_pos hab] at h
        exact List.mem_cons_of_mem b (ih bs r h x hx)
      · rw [if_neg hab] at h
        simp at h

theorem mem_of_dropWS :
    ∀ (l : List Char), ∀ x ∈ dropWS l, x ∈ l := by
  intro l
  induction l with
  | nil => intro x hx; simp [dropWS] at hx
  | cons c t ih =>
    intro x hx
    rw [dropWS] at hx
    by_cases hc : pyIsSpace c
    · rw [if_pos hc] at hx
      exact List.mem_cons_of_mem c (ih x hx)
    · rw [if_neg hc] at hx
      exact hx

theorem mem_of_dropAlnum :
    ∀ (l : List Char), ∀ x ∈ dropAlnum l, x ∈ l := by
  intro l
  induction l with
  | nil => intro x hx; simp [dropAlnum] at hx
  | cons c t ih =>
    intro x hx
    rw [dropAlnum] at hx
    by_cases hc : c.isAlpha || c.isDigit
    · rw [if_pos hc] at hx
      exact List.mem_cons_of_mem c (ih x hx)
    · rw [if_neg hc] at hx
      exact hx

theorem mem_of_eatWS1 :
    ∀ (l r : List Char), eatWS1 l = some r → ∀ x ∈ r, x ∈ l := by
  intro l r h x hx
  cases l with
  | nil => simp [eatWS1] at h
  | cons c t =>
    rw [eatWS1] at h
    by_cases hc : pyIsSpace c
    · rw [if_pos hc] at h
      simp at h
      rw [← h] at hx
      exact List.mem_cons_of_mem c (mem_of_dropWS t x hx)
    · rw [if_neg hc] at h
      simp at h

theorem mem_of_eatKwLet :
    ∀ (l r : List Char), eatKwLet l = some r → ∀ x ∈ r, x ∈ l := by
  intro l r h x hx
  rw [eatKwLet] at h
  cases h1 : eatLit "let".data l with
  | some r1 =>
    rw [h1] at h
    simp at h
    rw [h] at h1
    exact mem_of_eatLit "let".data l r h1 x hx
  | none =>
    rw [h1] at h
    exact mem_of_eatLit "var".data l r h x hx

theorem eq_mem_of_vnMatchAt :
    ∀ (prev : Option Char) (l : List Char),
      vnMatchAt prev l = true → '=' ∈ l := by
  intro prev l h
  rw [vnMatchAt, Bool.and_eq_true] at h
  rcases h with ⟨_, h⟩
  cases h1 : eatKwLet l with
  | none => simp [h1] at h
  | some r =>
    simp only [h1] at h
    cases h2 : eatWS1 r with
    | none => simp [h2] at h
    | some r2 =>
      simp only [h2] at h
      cases r2 with
      | nil => simp at h
      | cons c rest =>
        rw [Bool.and_eq_true] at h
        rcases h with ⟨_, h⟩
        cases h4 : dropWS (dropAlnum rest) with
        | nil => simp [h4] at h
        | cons d u =>
          simp only [h4] at h
          have hde : d = '=' := by simpa using h
          subst hde
          have m1 : '=' ∈ dropWS (dropAlnum rest) := by
            rw [h4]; exact List.mem_cons_self '=' u
          have m2 : '=' ∈ rest :=
            mem_of_dropAlnum _ '=' (mem_of_dropWS _ '=' m1)
          have m4 : '=' ∈ c :: rest := List.mem_cons_of_mem c m2
          have m5 : '=' ∈ r := mem_of_eatWS1 r (c :: rest) h2 '=' m4
          exact mem_of_eatKwLet l r h1 '=' m5

theorem eq_mem_of_vnSearch :
    ∀ (l : List Char) (prev : Option Char),
      vnSearch prev l = true → '=' ∈ l := by
  intro l
  induction l with
  | nil => intro prev h; simp [vnSearch] at h
  | cons c t ih =>
    intro prev h
    rw [vnSearch, Bool.or_eq_true] at h
    rcases h with h | h
    · exact eq_mem_of_vnMatchAt prev (c :: t) h
    · exact List.mem_cons_of_mem c (ih (some c) h)

/-- Claim C10: when a line contains no equals sign at all, the
variable-name check cannot fire (the match must consume an equals sign after
the identifier), so a binding declared without an initializer on the line
yields no variable_name issue; the concrete no-initializer binding yields no
issue, the initialized one yields exactly the variable_name issue, and the
type check fires with no trailing token at all after the name. -/
theorem c10_variable_check_requires_initializer :
    (∀ (fp line : String), containsChar '=' line = false →
      (check_naming_conventions fp [line]).filter
        (fun x => x.rule == "variable_name") = []) ∧
    check_naming_conventions "a.swift" ["let Foo: Int"] = [] ∧
    check_naming_conventions "a.swift" ["let Foo = 5"] = [vnIssue "a.swift" 1] ∧
    check_naming_conventions "a.swift" ["struct config"] = [tnIssue "a.swift" 1] := by
  refine ⟨?_, by decide, by decide, by decide⟩
  intro fp line h
  cases hb : vnSearch none line.data with
  | true =>
    exfalso
    have hm : '=' ∈ line.data := eq_mem_of_vnSearch line.data none hb
    rw [containsChar] at h
    simp at h
    exact h hm
  | false =>
    rw [check_naming_conventions, check_naming_conventions_go, hb]
    simp only [if_false, Bool.false_eq_true, List.nil_append]
    cases ht : tnSearch none line.data with
    | false => simp [check_naming_conventions_go]
    | true => simp [check_naming_conventions_go, tnIssue]

/-- Witness for C10 at a concrete equals-free binding line. -/
theorem c10_variable_check_requires_initializer_witness :
    (check_naming_conventions "b.swift" ["let Bar: Int"]).filter
      (fun x => x.rule == "variable_name") = [] :=
  c10_variable_check_requires_initializer.1 "b.swift" "let Bar: Int" (by decide)

/- ===================== Claim C8 ===================== -/

/-- Counterexample to claim C8 as stated: an interrupted run with a valid
directory argument does not exit with code 0 — the interruption escapes main
as an uncaught exception. -/
theorem c8_cex_interrupt_not_clean_exit :
    mainOutcome 2 true true 0 = RunOutcome.uncaught "KeyboardInterrupt" ∧
    mainOutcome 2 true true 0 ≠ RunOutcome.exited 0 := by
  constructor
  · decide
  · decide

/-- Claim C8 (amended): an operator interruption while scanning is not
caught by any handler (the per-file handler catches only ordinary
exceptions), so whatever the argument count at least two and whatever the
error counter, the run ends as an uncaught KeyboardInterrupt — an abnormal
termination that is not a sys.exit with any code, and no cancellation notice
is printed. -/
theorem c8_interrupt_uncaught :
    ∀ (argc e : Nat), 2 ≤ argc →
      mainOutcome argc true true e = RunOutcome.uncaught "KeyboardInterrupt" ∧
      ∀ (code : Nat), mainOutcome argc true true e ≠ RunOutcome.exited code := by
  intro argc e h
  have h2 : ¬(argc < 2) := by omega
  constructor
  · simp [mainOutcome, h2]
  · intro code
    simp [mainOutcome, h2]

/-- Witness for the amended C8 at concrete argument count and counter. -/
theorem c8_interrupt_uncaught_witness :
    mainOutcome 3 true true 5 = RunOutcome.uncaught "KeyboardInterrupt" :=
  (c8_interrupt_uncaught 3 5 (by decide)).1

end SwiftCheck
